import Mathlib

/-!
Verification development for the `lib-tool` document archive manager
(`librarianlib/document.py`, `librarianlib/management.py`).

Modelling conventions:
* Python strings are modelled as character lists (`PyStr := List Char`), so
  that every operation of the model is executable by kernel reduction.
* The regular expressions built by `DocumentTemplate` are modelled by their
  pattern strings; `re.search` with `re.IGNORECASE` is modelled as
  case-insensitive substring search and `re.findall` as a count of
  non-overlapping case-insensitive occurrences.  This is faithful for the
  metacharacter-free patterns that appear in the properties below.
* The filesystem side effects of the text cache are modelled by an explicit
  `TextCacheState` (contents of `.metadata/hash.md5` and `.metadata/text.txt`,
  plus a counter of extractor invocations); the external PDF extractor
  `_parse_pdf_text` and the MD5 digest `_hash_pdf` are deterministic in the
  PDF bytes, so a document carries its current digest and the extractor's
  result on its current bytes as abstract fields.
* Python exceptions are modelled with `Except PyStr`.
-/

/-- A Python string, modelled as its list of characters. -/
abbrev PyStr := List Char

/-- Conversion from a Lean string literal to the `PyStr` model. -/
def pys (s : String) : PyStr := s.toList

/-- Python whitespace for `str.split()` / `str.strip()`: space, tab, newline,
carriage return, vertical tab, form feed. -/
def isPySpace (c : Char) : Bool :=
  c = ' ' || c = '\t' || c = '\n' || c = '\r' || c = '\x0b' || c = '\x0c'

/-- Whether `pat` is an initial segment of `hay` (helper for substring search). -/
def leadsWith : PyStr → PyStr → Bool
  | [], _ => true
  | _ :: _, [] => false
  | a :: as, b :: bs => a == b && leadsWith as bs

/-- Substring search: does `pat` occur contiguously in `hay`?  Models
`re.search` for a metacharacter-free pattern. -/
def reSearch (pat : PyStr) : PyStr → Bool
  | [] => leadsWith pat []
  | c :: rest => leadsWith pat (c :: rest) || reSearch pat rest

/-- Count of non-overlapping left-to-right occurrences of `pat` in `hay`.
Models `len(regex.findall(hay))` for a metacharacter-free pattern (an empty
pattern matches once at every position, as in Python). -/
def reCount (pat : PyStr) : PyStr → Nat
  | [] => if pat = [] then 1 else 0
  | c :: rest =>
    if pat = [] then 1 + reCount pat rest
    else if leadsWith pat (c :: rest) then
      1 + reCount pat (List.drop (pat.length - 1) rest)
    else reCount pat rest
termination_by hay => hay.length
decreasing_by
  all_goals simp only [List.length_cons, List.length_drop]
  all_goals omega

/-- Python `str.lower()` (ASCII case folding, which is what `re.IGNORECASE`
amounts to on the patterns considered). -/
def pyLower (s : PyStr) : PyStr := s.map Char.toLower

/-- Case-insensitive `re.search` (`re.IGNORECASE`). -/
def reSearchCI (pat s : PyStr) : Bool :=
  reSearch (pyLower pat) (pyLower s)

/-- Case-insensitive `len(re.findall(...))` (`re.IGNORECASE`). -/
def reCountCI (pat s : PyStr) : Nat :=
  reCount (pyLower pat) (pyLower s)

/-- Case-sensitive substring containment, modelling Python's `needle in hay`
for strings (used by the entry-type predicate, which is not a regex). -/
def strIn (needle hay : PyStr) : Bool :=
  reSearch needle hay

/-- Split a character list at every character satisfying `p`, keeping the
(possibly empty) segments between separators — Python's `s.split(sep)` when
`p` tests for the single separator character.  Always returns at least one
segment. -/
def pySplitP (p : Char → Bool) : PyStr → List PyStr
  | [] => [[]]
  | c :: cs =>
    if p c then [] :: pySplitP p cs
    else
      match pySplitP p cs with
      | [] => [[c]]
      | w :: ws => (c :: w) :: ws

/-- Python's `s.split()` (no argument): split on whitespace runs and drop the
empty segments. -/
def pyWords (s : PyStr) : List PyStr :=
  (pySplitP isPySpace s).filter (fun w => !w.isEmpty)

/-- Python's `sep.join(parts)` for a single-character separator. -/
def pyJoin (sep : Char) : List PyStr → PyStr
  | [] => []
  | [t] => t
  | t :: t2 :: ts => t ++ sep :: pyJoin sep (t2 :: ts)

/-- Python's `s.strip()`: drop whitespace from both ends. -/
def pyStrip (s : PyStr) : PyStr :=
  ((s.dropWhile isPySpace).reverse.dropWhile isPySpace).reverse

/-- Python's `int()` on a string of decimal digits (the model only ever
applies it to numerals, where `int()` cannot raise). -/
def pyIntNat (s : PyStr) : Nat :=
  s.foldl (fun n c => 10 * n + (c.toNat - '0'.toNat)) 0

/-- Python's `str()` on a non-negative integer. -/
def pyStrNat (n : Nat) : PyStr := Nat.toDigits 10 n

/-- Model of `_pattern_to_regex`: a falsy pattern (absent or empty) compiles
to no regex; otherwise the regex is represented by its pattern string. -/
def pattern_to_regex (pattern : Option PyStr) : Option PyStr :=
  match pattern with
  | none => none
  | some p => if p = [] then none else some p

/-- Model of `_parse_author_pattern`: split a truthy pattern on single spaces
into a list of (case-insensitive) regexes, one per token. -/
def parse_author_pattern (pattern : Option PyStr) : Option (List PyStr) :=
  match pattern with
  | none => none
  | some p => if p = [] then none else some (pySplitP (fun c => c == ' ') p)

/-- Model of `_parse_year_pattern`: a truthy pattern containing a dash is
split on dashes, its first two segments are read as integer bounds, and the
result is the inclusive range of year strings; otherwise the singleton of the
pattern itself. -/
def parse_year_pattern (pattern : Option PyStr) : Option (List PyStr) :=
  match pattern with
  | none => none
  | some p =>
    if p = [] then none
    else if p.contains '-' then
      let years := pySplitP (fun c => c == '-') p
      let first := pyIntNat (years.getD 0 [])
      let last := pyIntNat (years.getD 1 [])
      some ((List.range (last + 1 - first)).map (fun i => pyStrNat (first + i)))
    else some [p]

/-- Model of `_pattern_to_list`: split a truthy pattern on commas, defaulting
to the empty list. -/
def pattern_to_list (pattern : Option PyStr) : List PyStr :=
  match pattern with
  | none => []
  | some p => if p = [] then [] else pySplitP (fun c => c == ',') p

/-- `DocumentTemplate`: the compiled per-field predicates of a query.
Regexes are represented by their pattern strings (`none` = no filter). -/
structure DocumentTemplate where
  key_regex : Option PyStr
  title_regex : Option PyStr
  author_regexes : Option (List PyStr)
  years : Option (List PyStr)
  venue_regex : Option PyStr
  entrytype_pattern : Option PyStr
  text_regex : Option PyStr
  tag_list : List PyStr

/-- Model of `DocumentTemplate.__init__`, compiling the raw patterns. -/
def DocumentTemplate.init (key_pattern title_pattern author_pattern
    year_pattern venue_pattern entrytype_pattern text_pattern
    tag_pattern : Option PyStr) : DocumentTemplate :=
  { key_regex := pattern_to_regex key_pattern,
    title_regex := pattern_to_regex title_pattern,
    author_regexes := parse_author_pattern author_pattern,
    years := parse_year_pattern year_pattern,
    venue_regex := pattern_to_regex venue_pattern,
    entrytype_pattern := entrytype_pattern,
    text_regex := pattern_to_regex text_pattern,
    tag_list := pattern_to_list tag_pattern }

/-- Model of `DocumentTemplate.key`: no regex accepts everything, otherwise
search the key. -/
def DocumentTemplate.key (t : DocumentTemplate) (key : PyStr) : Bool :=
  match t.key_regex with
  | none => true
  | some r => reSearchCI r key

/-- Model of `DocumentTemplate.title`. -/
def DocumentTemplate.title (t : DocumentTemplate) (title : PyStr) : Bool :=
  match t.title_regex with
  | none => true
  | some r => reSearchCI r title

/-- Model of `DocumentTemplate.authors`: every author-token regex must match
somewhere in the space-joined author string (conjunctive). -/
def DocumentTemplate.authors (t : DocumentTemplate) (authors : List PyStr) : Bool :=
  match t.author_regexes with
  | none => true
  | some regexes => regexes.all (fun r => reSearchCI r (pyJoin ' ' authors))

/-- Model of `DocumentTemplate.year`: membership of the document's year string
in the expanded year list. -/
def DocumentTemplate.year (t : DocumentTemplate) (year : PyStr) : Bool :=
  match t.years with
  | none => true
  | some ys => ys.contains year

/-- Model of `DocumentTemplate.venue`: no venue regex accepts everything; a
venue regex with a falsy document venue (absent or empty) rejects; otherwise
search the venue. -/
def DocumentTemplate.venue (t : DocumentTemplate) (venue : Option PyStr) : Bool :=
  match t.venue_regex with
  | none => true
  | some r =>
    match venue with
    | none => false
    | some v => if v = [] then false else reSearchCI r v

/-- Model of `DocumentTemplate.entrytype`: a falsy pattern accepts everything,
otherwise plain substring containment (case-sensitive, not a regex). -/
def DocumentTemplate.entrytype (t : DocumentTemplate) (entrytype : PyStr) : Bool :=
  match t.entrytype_pattern with
  | none => true
  | some p => if p = [] then true else strIn p entrytype

/-- Model of `DocumentTemplate.tags`: every tag in the template's tag list
must be present among the document's tags. -/
def DocumentTemplate.tags (t : DocumentTemplate) (tags : List PyStr) : Bool :=
  t.tag_list.all (fun tag => tags.contains tag)

/-- On-disk state of one document's derived-text cache: the contents of
`.metadata/hash.md5` and `.metadata/text.txt` (`none` = file missing), plus a
count of `_parse_pdf_text` invocations (for stating whether the extractor is
invoked). -/
structure TextCacheState where
  hashFile : Option PyStr
  textFile : Option PyStr
  extractorCalls : Nat
deriving DecidableEq

/-- `ArchivalDocument`: one archived item.  `currentHash` is the MD5 digest of
the document's current PDF bytes (`_hash_pdf`), and `extractResult` the
deterministic result of `_parse_pdf_text` on those bytes (`none` =
extraction failure). -/
structure ArchivalDocument where
  key : PyStr
  title : PyStr
  authors : List PyStr
  year : PyStr
  venue : Option PyStr
  entrytype : PyStr
  tags : List PyStr
  currentHash : PyStr
  extractResult : Option PyStr

/-- Model of `ArchivalDocument.text`: if the text record or the hash record is
missing, or the stored hash differs from the current hash, re-extract — the
extractor is invoked, the new hash is written, and the text record is written
only when extraction succeeded; otherwise serve the stored text record.
Returns `((text, new), state₂)`. -/
def ArchivalDocument.text (doc : ArchivalDocument) (s : TextCacheState) :
    (Option PyStr × Bool) × TextCacheState :=
  if s.textFile = none ∨ s.hashFile = none ∨ some doc.currentHash ≠ s.hashFile then
    ((doc.extractResult, true),
     { hashFile := some doc.currentHash,
       textFile := match doc.extractResult with
                   | some t => some t
                   | none => s.textFile,
       extractorCalls := s.extractorCalls + 1 })
  else
    ((s.textFile, false), s)

/-- Model of `DocumentTemplate.text`: with no full-text regex, trivially
accept with count 0 without calling `text_func`; otherwise materialize the
text and count regex matches.  When the materialized text is `None`,
`regex.findall(None)` raises `TypeError`, modelled as `Except.error`. -/
def DocumentTemplate.text (t : DocumentTemplate)
    (text_func : TextCacheState → Option PyStr × TextCacheState)
    (s : TextCacheState) : Except PyStr ((Bool × Nat) × TextCacheState) :=
  match t.text_regex with
  | none => .ok ((true, 0), s)
  | some r =>
    match text_func s with
    | (none, _) => .error (pys "TypeError: expected string or bytes-like object")
    | (some txt, s2) =>
      if reCountCI r txt = 0 then .ok ((false, 0), s2)
      else .ok ((true, reCountCI r txt), s2)

/-- Model of `ArchivalDocument.matches`: test key, title, authors, year,
venue, entrytype, and tags in order, returning `(False, 0)` at the first
failure; only then evaluate the full-text predicate, whose `_text_func`
materializes the document text through the cache. -/
def ArchivalDocument.matches (doc : ArchivalDocument) (tmpl : DocumentTemplate)
    (s : TextCacheState) : Except PyStr ((Bool × Nat) × TextCacheState) :=
  if tmpl.key doc.key = false then .ok ((false, 0), s)
  else if tmpl.title doc.title = false then .ok ((false, 0), s)
  else if tmpl.authors doc.authors = false then .ok ((false, 0), s)
  else if tmpl.year doc.year = false then .ok ((false, 0), s)
  else if tmpl.venue doc.venue = false then .ok ((false, 0), s)
  else if tmpl.entrytype doc.entrytype = false then .ok ((false, 0), s)
  else if tmpl.tags doc.tags = false then .ok ((false, 0), s)
  else tmpl.text (fun st => ((doc.text st).1.1, (doc.text st).2)) s

/-- Model of `os.path.join` for a relative second component. -/
def pathJoin (a b : PyStr) : PyStr := a ++ '/' :: b

/-- `DocumentPaths`: directory structure of a document in the archive. -/
structure DocumentPaths where
  key_path : PyStr
  pdf_path : PyStr
  bib_path : PyStr
  tag_path : PyStr
  metadata_path : PyStr
  hash_path : PyStr
  text_path : PyStr
  accessed_path : PyStr
  added_path : PyStr

/-- Model of `DocumentPaths.__init__`. -/
def DocumentPaths.init (parent key : PyStr) : DocumentPaths :=
  { key_path := pathJoin parent key,
    pdf_path := pathJoin (pathJoin parent key) (key ++ pys ".pdf"),
    bib_path := pathJoin (pathJoin parent key) (key ++ pys ".bib"),
    tag_path := pathJoin (pathJoin parent key) (pys "tags.txt"),
    metadata_path := pathJoin (pathJoin parent key) (pys ".metadata"),
    hash_path := pathJoin (pathJoin (pathJoin parent key) (pys ".metadata")) (pys "hash.md5"),
    text_path := pathJoin (pathJoin (pathJoin parent key) (pys ".metadata")) (pys "text.txt"),
    accessed_path := pathJoin (pathJoin (pathJoin parent key) (pys ".metadata")) (pys "accessed.txt"),
    added_path := pathJoin (pathJoin (pathJoin parent key) (pys ".metadata")) (pys "added.txt") }

/-- Filesystem operations that `LibraryManager.add` may perform. -/
inductive FsOp where
  | mkdir (path : PyStr)
  | copyFile (src dest : PyStr)
deriving DecidableEq

/-- `LibraryManager`: the archive root and the keys (subdirectories) currently
present under it. -/
structure LibraryManager where
  archive_path : PyStr
  archive_keys : List PyStr

/-- Model of `LibraryManager.has_key`: `os.path.isdir(archive_path/key)`. -/
def LibraryManager.has_key (m : LibraryManager) (key : PyStr) : Bool :=
  m.archive_keys.contains key

/-- Model of `LibraryManager.add`.  `bibKey` is the result of
`key_from_bibtex` on the source bibtex file (an external parse).  If the key
is already in the archive, a `LibraryException` is raised before any
filesystem operation; otherwise the document directories are created and the
PDF and bibtex files copied.  Returns the outcome together with the list of
filesystem operations performed. -/
def LibraryManager.add (m : LibraryManager) (bibKey : PyStr)
    (pdf_src_path bib_src_path : PyStr) :
    Except PyStr LibraryManager × List FsOp :=
  if m.has_key bibKey then
    (.error (pys "Archive already contains key " ++ bibKey ++ pys ". Aborting."), [])
  else
    (.ok { m with archive_keys := m.archive_keys ++ [bibKey] },
     [.mkdir (DocumentPaths.init m.archive_path bibKey).key_path,
      .mkdir (DocumentPaths.init m.archive_path bibKey).metadata_path,
      .copyFile pdf_src_path (DocumentPaths.init m.archive_path bibKey).pdf_path,
      .copyFile bib_src_path (DocumentPaths.init m.archive_path bibKey).bib_path])

/-- Model of the tag-file write in `ArchivalDocument.tag`: the file receives
`'\n'.join(self.tags)`. -/
def tagFileWrite (tags : List PyStr) : PyStr :=
  pyJoin '\n' tags

/-- Model of `ArchivalDocument.tag` itself: extend the in-memory tag list with
the new tags and write the whole list to the tag file.  Returns the new
in-memory tag list together with the file contents written. -/
def ArchivalDocument.tag (selfTags newTags : List PyStr) :
    List PyStr × PyStr :=
  (selfTags ++ newTags, tagFileWrite (selfTags ++ newTags))

/-- Model of the tag-file read in `ArchivalDocument.__init__`:
`f.read().strip().split()`. -/
def tagFileLoad (content : PyStr) : List PyStr :=
  pyWords (pyStrip content)

/-- A well-formed tag: non-empty and free of whitespace characters. -/
def goodTag (t : PyStr) : Prop :=
  t ≠ [] ∧ ∀ c ∈ t, isPySpace c = false

instance instDecidableGoodTag (t : PyStr) : Decidable (goodTag t) :=
  decidable_of_iff (t ≠ [] ∧ ∀ c ∈ t, isPySpace c = false) Iff.rfl

theorem pySplitP_ne_nil (p : Char → Bool) (s : PyStr) : pySplitP p s ≠ [] := by
  cases s with
  | nil => simp [pySplitP]
  | cons c cs =>
    unfold pySplitP
    split
    · simp
    · split <;> simp

theorem pySplitP_token_append (p : Char → Bool) (t r w : PyStr) (ws : List PyStr)
    (ht : ∀ c ∈ t, p c = false) (hr : pySplitP p r = w :: ws) :
    pySplitP p (t ++ r) = (t ++ w) :: ws := by
  induction t with
  | nil => simpa using hr
  | cons c t ih =>
    have hc : p c = false := ht c (by simp)
    have ih2 : pySplitP p (t ++ r) = (t ++ w) :: ws := ih (fun x hx => ht x (by simp [hx]))
    simp [pySplitP, hc, ih2]

theorem pySplitP_sep (p : Char → Bool) (c : Char) (r : PyStr) (hc : p c = true) :
    pySplitP p (c :: r) = [] :: pySplitP p r := by
  simp [pySplitP, hc]

theorem pyWords_single (t : PyStr) (h : goodTag t) : pyWords t = [t] := by
  have h2 : pySplitP isPySpace (t ++ []) = (t ++ []) :: [] :=
    pySplitP_token_append isPySpace t [] [] [] h.2 rfl
  simp only [List.append_nil] at h2
  unfold pyWords
  rw [h2]
  simp [List.filter_cons, List.isEmpty_iff, h.1]

theorem pyWords_token_newline (t r : PyStr) (h : goodTag t) :
    pyWords (t ++ '\n' :: r) = t :: pyWords r := by
  obtain ⟨w, ws, hw⟩ : ∃ w ws, pySplitP isPySpace r = w :: ws := by
    cases hsp : pySplitP isPySpace r with
    | nil => exact absurd hsp (pySplitP_ne_nil isPySpace r)
    | cons w ws => exact ⟨w, ws, rfl⟩
  have h1 : pySplitP isPySpace ('\n' :: r) = [] :: w :: ws := by
    rw [pySplitP_sep isPySpace '\n' r (by decide), hw]
  have h2 : pySplitP isPySpace (t ++ '\n' :: r) = (t ++ []) :: w :: ws :=
    pySplitP_token_append isPySpace t _ [] (w :: ws) h.2 h1
  simp only [List.append_nil] at h2
  unfold pyWords
  rw [h2, hw]
  simp [List.filter_cons, List.isEmpty_iff, h.1]

theorem pyWords_pyJoin (tags : List PyStr) (h : ∀ t ∈ tags, goodTag t) :
    pyWords (pyJoin '\n' tags) = tags := by
  induction tags with
  | nil => decide
  | cons t ts ih =>
    cases ts with
    | nil => exact pyWords_single t (h t (by simp))
    | cons t2 ts2 =>
      have step := pyWords_token_newline t (pyJoin '\n' (t2 :: ts2)) (h t (by simp))
      calc pyWords (pyJoin '\n' (t :: t2 :: ts2))
          = pyWords (t ++ '\n' :: pyJoin '\n' (t2 :: ts2)) := rfl
        _ = t :: pyWords (pyJoin '\n' (t2 :: ts2)) := step
        _ = t :: (t2 :: ts2) := by rw [ih (fun x hx => h x (by simp [hx]))]

theorem dropWhile_pyJoin (tags : List PyStr) (h : ∀ t ∈ tags, goodTag t) :
    List.dropWhile isPySpace (pyJoin '\n' tags) = pyJoin '\n' tags := by
  cases tags with
  | nil => rfl
  | cons t ts =>
    have ht := h t (by simp)
    obtain ⟨c, t2, rfl⟩ : ∃ c t2, t = c :: t2 := by
      cases t with
      | nil => exact absurd rfl ht.1
      | cons c t2 => exact ⟨c, t2, rfl⟩
    have hc : isPySpace c = false := ht.2 c (by simp)
    cases ts with
    | nil => simp [pyJoin, List.dropWhile_cons, hc]
    | cons t3 ts3 => simp [pyJoin, List.dropWhile_cons, hc]

theorem reverse_pyJoin_good (tags : List PyStr) (hne : tags ≠ [])
    (h : ∀ t ∈ tags, goodTag t) :
    ∃ d z, (pyJoin '\n' tags).reverse = d :: z ∧ isPySpace d = false := by
  induction tags with
  | nil => exact absurd rfl hne
  | cons t ts ih =>
    have ht := h t (by simp)
    cases ts with
    | nil =>
      obtain ⟨d, z, hd⟩ : ∃ d z, t.reverse = d :: z := by
        cases hr : t.reverse with
        | nil => exact absurd (List.reverse_eq_nil_iff.mp hr) ht.1
        | cons d z => exact ⟨d, z, rfl⟩
      refine ⟨d, z, hd, ?_⟩
      have hdm : d ∈ t := by
        have hmem : d ∈ t.reverse := by rw [hd]; simp
        simpa using hmem
      exact ht.2 d hdm
    | cons t2 ts2 =>
      obtain ⟨d, z, hd, hds⟩ := ih (by simp) (fun x hx => h x (by simp [hx]))
      refine ⟨d, z ++ '\n' :: t.reverse, ?_, hds⟩
      calc (pyJoin '\n' (t :: t2 :: ts2)).reverse
          = (t ++ '\n' :: pyJoin '\n' (t2 :: ts2)).reverse := rfl
        _ = ((pyJoin '\n' (t2 :: ts2)).reverse ++ ['\n']) ++ t.reverse := by
            rw [List.reverse_append, List.reverse_cons]
        _ = d :: (z ++ '\n' :: t.reverse) := by rw [hd]; simp

theorem pyStrip_pyJoin (tags : List PyStr) (h : ∀ t ∈ tags, goodTag t) :
    pyStrip (pyJoin '\n' tags) = pyJoin '\n' tags := by
  unfold pyStrip
  rw [dropWhile_pyJoin tags h]
  cases tags with
  | nil => rfl
  | cons t ts =>
    obtain ⟨d, z, hd, hds⟩ := reverse_pyJoin_good (t :: ts) (by simp) h
    rw [hd, List.dropWhile_cons]
    simp only [hds, Bool.false_eq_true, if_false]
    rw [← hd, List.reverse_reverse]

theorem tagFileLoad_write (tags : List PyStr) (h : ∀ t ∈ tags, goodTag t) :
    tagFileLoad (tagFileWrite tags) = tags := by
  unfold tagFileLoad tagFileWrite
  rw [pyStrip_pyJoin tags h, pyWords_pyJoin tags h]

/-- A document whose PDF text extraction fails (the extractor returns `None`). -/
def docNoText : ArchivalDocument :=
  { key := pys "doe2020", title := pys "A Study", authors := [pys "J. Doe"],
    year := pys "2020", venue := none, entrytype := pys "article", tags := [],
    currentHash := pys "d41d8cd98f00b204e9800998ecf8427e", extractResult := none }

/-- A document whose PDF text extraction succeeds. -/
def docWithText : ArchivalDocument :=
  { key := pys "roe2015", title := pys "Another Study", authors := [pys "R. Roe"],
    year := pys "2015", venue := some (pys "NeurIPS"), entrytype := pys "inproceedings",
    tags := [pys "ml"], currentHash := pys "900150983cd24fb0d6963f7d28e17f72",
    extractResult := some (pys "hello world") }

/-- An empty cache state: neither the hash record nor the text record exists. -/
def emptyCache : TextCacheState :=
  { hashFile := none, textFile := none, extractorCalls := 0 }

/-- Claim C1 counterexample: starting from an empty cache with a failing
extractor, the first text() call does persist the new hash, but the second
call on unchanged PDF bytes takes the re-extraction branch again — the
extractor is invoked a second time and the call reports
freshly_extracted = true — so the document is NOT treated as "up to date with
no text". -/
theorem text_failed_extraction_retries :
    (docNoText.text emptyCache).2.hashFile = some docNoText.currentHash
    ∧ (docNoText.text ((docNoText.text emptyCache).2)).2.extractorCalls = 2
    ∧ ¬ ((docNoText.text ((docNoText.text emptyCache).2)).1.2 = false) := by
  refine ⟨rfl, rfl, ?_⟩
  decide

/-- Claim C1 (amended): on every text() call taking the re-extraction branch
(missing text record, missing hash record, or hash mismatch), the new content
hash is persisted immediately, even if extraction fails or returns nothing;
however, when extraction fails and no text record exists, a subsequent call
on unchanged PDF bytes takes the re-extraction branch again and re-invokes
the extractor (reporting freshly extracted), rather than treating the
document as up to date with no text. -/
theorem text_reextraction_persists_hash (doc : ArchivalDocument) (s : TextCacheState)
    (hbranch : s.textFile = none ∨ s.hashFile = none ∨ some doc.currentHash ≠ s.hashFile) :
    (doc.text s).2.hashFile = some doc.currentHash
    ∧ (doc.extractResult = none → s.textFile = none →
        (doc.text ((doc.text s).2)).2.extractorCalls = s.extractorCalls + 2
        ∧ (doc.text ((doc.text s).2)).1.2 = true) := by
  have h1 : doc.text s = ((doc.extractResult, true),
      { hashFile := some doc.currentHash,
        textFile := match doc.extractResult with
                    | some t => some t
                    | none => s.textFile,
        extractorCalls := s.extractorCalls + 1 }) := by
    unfold ArchivalDocument.text
    rw [if_pos hbranch]
  refine ⟨by rw [h1], ?_⟩
  intro hext hst
  rw [h1, hext, hst]
  unfold ArchivalDocument.text
  rw [if_pos (Or.inl rfl)]
  exact ⟨rfl, rfl⟩

/-- Claim C1 witness: the amended statement instantiated on a concrete
document with failing extraction and an empty cache. -/
theorem text_reextraction_persists_hash_witness :
    (docNoText.text emptyCache).2.hashFile = some docNoText.currentHash
    ∧ ((docNoText.text ((docNoText.text emptyCache).2)).2.extractorCalls = 0 + 2
        ∧ (docNoText.text ((docNoText.text emptyCache).2)).1.2 = true) := by
  have h := text_reextraction_persists_hash docNoText emptyCache (Or.inl rfl)
  exact ⟨h.1, h.2 rfl rfl⟩

/-- Claim C2: the spec requires matching to treat a document with no
extractable text as "full-text predicate cannot match"; the code instead
calls regex.findall(None), which raises TypeError — evaluated here at a
concrete document with a full-text filter, matches raises instead of
excluding the document. -/
theorem matches_none_text_raises :
    docNoText.matches
      (DocumentTemplate.init none none none none none none (some (pys "foo")) none)
      emptyCache
    = .error (pys "TypeError: expected string or bytes-like object") := rfl

/-- Claim C3 counterexample: with an empty cache and a failing extractor the
PDF bytes are unchanged between two consecutive text() calls, yet the second
call reports freshly_extracted = true, contradicting the claim that it
returns false. -/
theorem text_unchanged_second_call_fresh :
    ¬ ((docNoText.text ((docNoText.text emptyCache).2)).1.2 = false) := by
  decide

/-- Claim C3 (amended): if a document's PDF bytes are unchanged between two
consecutive text() calls and the first call returned text (extraction
succeeded, or valid cached text was served), then the second call returns
freshly_extracted = false and the same text as the first. -/
theorem text_unchanged_cached (doc : ArchivalDocument) (s : TextCacheState)
    (h : (doc.text s).1.1 ≠ none) :
    (doc.text ((doc.text s).2)).1.2 = false
    ∧ (doc.text ((doc.text s).2)).1.1 = (doc.text s).1.1 := by
  by_cases hbranch : s.textFile = none ∨ s.hashFile = none ∨ some doc.currentHash ≠ s.hashFile
  · obtain ⟨t, ht⟩ : ∃ t, doc.extractResult = some t := by
      cases he : doc.extractResult with
      | none =>
        exfalso
        apply h
        unfold ArchivalDocument.text
        rw [if_pos hbranch, he]
      | some t => exact ⟨t, rfl⟩
    have h1 : doc.text s = ((some t, true),
        { hashFile := some doc.currentHash, textFile := some t,
          extractorCalls := s.extractorCalls + 1 }) := by
      unfold ArchivalDocument.text
      rw [if_pos hbranch, ht]
    have h2 : doc.text
        { hashFile := some doc.currentHash, textFile := some t,
          extractorCalls := s.extractorCalls + 1 }
        = ((some t, false),
           { hashFile := some doc.currentHash, textFile := some t,
             extractorCalls := s.extractorCalls + 1 }) := by
      unfold ArchivalDocument.text
      rw [if_neg (by simp)]
    simp [h1, h2]
  · have h1 : doc.text s = ((s.textFile, false), s) := by
      unfold ArchivalDocument.text
      rw [if_neg hbranch]
    simp [h1]

/-- Claim C3 witness: the amended statement instantiated on a concrete
document with successful extraction and an empty cache. -/
theorem text_unchanged_cached_witness :
    (docWithText.text ((docWithText.text emptyCache).2)).1.2 = false
    ∧ (docWithText.text ((docWithText.text emptyCache).2)).1.1
        = (docWithText.text emptyCache).1.1 :=
  text_unchanged_cached docWithText emptyCache (by decide)

/-- Claim C4: a query template built with no filter patterns set accepts
every document with full-text match count 0 (and leaves the cache state
untouched). -/
theorem matches_no_filters (doc : ArchivalDocument) (s : TextCacheState) :
    doc.matches (DocumentTemplate.init none none none none none none none none) s
      = .ok ((true, 0), s) := rfl

/-- Claim C5: the year pattern "2010-2012" compiles to the inclusive range
["2010", "2011", "2012"]; the year predicate accepts exactly membership in
that range — in particular it accepts 2010, 2011 and 2012 and rejects 2009
and 2013. -/
theorem year_range_inclusive :
    (DocumentTemplate.init none none none (some (pys "2010-2012")) none none none none).years
      = some [pys "2010", pys "2011", pys "2012"]
    ∧ (∀ y : PyStr,
        (DocumentTemplate.init none none none (some (pys "2010-2012")) none none none none).year y
          = ([pys "2010", pys "2011", pys "2012"] : List PyStr).contains y)
    ∧ (DocumentTemplate.init none none none (some (pys "2010-2012")) none none none none).year (pys "2010") = true
    ∧ (DocumentTemplate.init none none none (some (pys "2010-2012")) none none none none).year (pys "2011") = true
    ∧ (DocumentTemplate.init none none none (some (pys "2010-2012")) none none none none).year (pys "2012") = true
    ∧ (DocumentTemplate.init none none none (some (pys "2010-2012")) none none none none).year (pys "2009") = false
    ∧ (DocumentTemplate.init none none none (some (pys "2010-2012")) none none none none).year (pys "2013") = false :=
  ⟨by decide, fun y => rfl, by decide, by decide, by decide, by decide, by decide⟩

/-- Claim C6: the author filter "Smith Jones" is conjunctive over its
space-separated tokens, each matched against the concatenation of all
authors: it accepts a document with authors ["Alice Smith", "Bob Jones"] and
rejects a document whose only author is "Alice Smith". -/
theorem author_filter_conjunctive :
    (DocumentTemplate.init none none (some (pys "Smith Jones")) none none none none none).authors
      [pys "Alice Smith", pys "Bob Jones"] = true
    ∧ (DocumentTemplate.init none none (some (pys "Smith Jones")) none none none none none).authors
      [pys "Alice Smith"] = false := by
  decide

/-- Claim C7: if a venue filter is given and the document has no venue, the
venue predicate rejects the document; if no venue filter is given, it accepts
every document. -/
theorem venue_filter_vs_missing_venue :
    (∀ p : PyStr, p ≠ [] →
      (DocumentTemplate.init none none none none (some p) none none none).venue none = false)
    ∧ (∀ v : Option PyStr,
      (DocumentTemplate.init none none none none none none none none).venue v = true) := by
  constructor
  · intro p hp
    simp [DocumentTemplate.init, DocumentTemplate.venue, pattern_to_regex, hp]
  · intro v
    rfl

/-- Claim C7 witness: the statement instantiated at a concrete venue filter
and a concrete venue. -/
theorem venue_filter_vs_missing_venue_witness :
    (DocumentTemplate.init none none none none (some (pys "IEEE")) none none none).venue none = false
    ∧ (DocumentTemplate.init none none none none none none none none).venue (some (pys "IEEE")) = true :=
  ⟨venue_filter_vs_missing_venue.1 (pys "IEEE") (by decide),
   venue_filter_vs_missing_venue.2 (some (pys "IEEE"))⟩

/-- Claim C8: matching short-circuits before the full-text predicate — if
any of the key, title, author, year, venue, entry-type or tag predicates
rejects the document, matches returns (false, 0) and the cache state is
returned unchanged, so the text-extraction function is never invoked. -/
theorem matches_short_circuits (doc : ArchivalDocument) (tmpl : DocumentTemplate)
    (s : TextCacheState)
    (h : tmpl.key doc.key = false ∨ tmpl.title doc.title = false
      ∨ tmpl.authors doc.authors = false ∨ tmpl.year doc.year = false
      ∨ tmpl.venue doc.venue = false ∨ tmpl.entrytype doc.entrytype = false
      ∨ tmpl.tags doc.tags = false) :
    doc.matches tmpl s = .ok ((false, 0), s) := by
  unfold ArchivalDocument.matches
  split
  · rfl
  split
  · rfl
  split
  · rfl
  split
  · rfl
  split
  · rfl
  split
  · rfl
  split
  · rfl
  rcases h with h|h|h|h|h|h|h <;> simp_all

/-- Claim C8 witness: a document rejected by the key predicate while a
full-text filter is present — the result is (false, 0) and the cache state
is unchanged. -/
theorem matches_short_circuits_witness :
    docNoText.matches
      (DocumentTemplate.init (some (pys "roe")) none none none none none (some (pys "foo")) none)
      emptyCache = .ok ((false, 0), emptyCache) :=
  matches_short_circuits docNoText
    (DocumentTemplate.init (some (pys "roe")) none none none none none (some (pys "foo")) none)
    emptyCache (Or.inl (by decide))

/-- Claim C9: adding a document whose key already exists fails with the
duplicate-key error and commits no partial state: no directory is created
and no file is copied (the operation list is empty and the error outcome
carries no archive change). -/
theorem add_duplicate_key_rolls_back (m : LibraryManager) (bibKey pdf bib : PyStr)
    (h : m.has_key bibKey = true) :
    m.add bibKey pdf bib
      = (.error (pys "Archive already contains key " ++ bibKey ++ pys ". Aborting."), []) := by
  unfold LibraryManager.add
  rw [if_pos h]

/-- Claim C9 witness: adding key "doe2020" to an archive that already
contains it. -/
theorem add_duplicate_key_rolls_back_witness :
    ({ archive_path := pys "archive", archive_keys := [pys "doe2020"] } : LibraryManager).add
        (pys "doe2020") (pys "new/doe2020.pdf") (pys "new/doe2020.bib")
      = (.error (pys "Archive already contains key " ++ pys "doe2020" ++ pys ". Aborting."), []) :=
  add_duplicate_key_rolls_back
    { archive_path := pys "archive", archive_keys := [pys "doe2020"] }
    (pys "doe2020") (pys "new/doe2020.pdf") (pys "new/doe2020.bib") (by decide)

/-- Claim C10: tag persistence round-trips exactly when no tag contains
whitespace — writing the tag list via tag() and re-reading the sidecar file
yields the same tag sequence whenever every tag is non-empty and free of
whitespace; a tag containing a space is split on reload, so the reloaded
list differs from the one written. -/
theorem tag_roundtrip_iff_no_whitespace :
    (∀ selfTags newTags : List PyStr,
      (∀ t ∈ selfTags ++ newTags, goodTag t) →
      tagFileLoad (ArchivalDocument.tag selfTags newTags).2
        = (ArchivalDocument.tag selfTags newTags).1)
    ∧ tagFileLoad (ArchivalDocument.tag [] [pys "machine learning"]).2
        ≠ [pys "machine learning"] := by
  constructor
  · intro selfTags newTags h
    exact tagFileLoad_write (selfTags ++ newTags) h
  · decide

/-- Claim C10 witness: the round-trip statement instantiated at concrete
whitespace-free tags. -/
theorem tag_roundtrip_iff_no_whitespace_witness :
    tagFileLoad (ArchivalDocument.tag [pys "ml"] [pys "nlp", pys "cv"]).2
      = [pys "ml", pys "nlp", pys "cv"] :=
  tag_roundtrip_iff_no_whitespace.1 [pys "ml"] [pys "nlp", pys "cv"] (by decide)
